import Mathlib

/-!
Verification of `src/utils.py` of the 4TCT board-scraping tool: the CLI
argument validator, the `LoggerManager` lifecycle (setup, log-file naming,
old-log cleanup) and the JSON config loader, shallowly embedded in Lean.

Conventions of the embedding:
* Python exceptions become explicit error results (`Except`, or a pair with
  an `Option` error component for loops that may abort midway).
* The filesystem is passed explicitly: a function from paths to contents
  for the config loader, and a list of filenames for the log folder.
* `datetime.utcnow()` becomes an explicit `DateTime` argument; naive UTC
  datetimes compare chronologically, which for in-range field values is the
  lexicographic order on (year, month, day, hour, minute, second).
* Python `float` values are modelled as rationals; the comparisons the code
  performs (`< 1`) are exact on every float, so no rounding is modelled.
-/

namespace FourTCT

/-- JSON values, as produced by Python `json.load`. -/
inductive Json where
  | null : Json
  | bool : Bool → Json
  | num : ℚ → Json
  | str : String → Json
  | arr : List Json → Json
  | obj : List (String × Json) → Json

/-- Python `field in config` for a dict: membership among the keys.
(The claims under verification only concern top-level JSON objects; for a
non-dict top level Python's `in` would test element membership or raise
`TypeError`, which is outside the scope modelled here.) -/
def Json.hasKey : Json → String → Bool
  | .obj kvs, k => kvs.any (fun p => p.1 == k)
  | _, _ => false

/-- The distinct exception kinds `load_and_validate_config` can raise:
`FileNotFoundError`, `ValueError` for bad JSON, `ValueError` for missing
fields.  Each constructor carries what the Python message interpolates. -/
inductive ConfigError where
  | fileNotFound : String → ConfigError
  | invalidJson : String → ConfigError
  | missingFields : List String → ConfigError
deriving DecidableEq

/-- The message attached to each error, mirroring the f-strings in the
source (`Config file not found at ...`, `Invalid JSON format in ...`,
`Missing required fields in config: ...`). -/
def ConfigError.message : ConfigError → String
  | .fileNotFound p => "Config file not found at " ++ p
  | .invalidJson p => "Invalid JSON format in " ++ p
  | .missingFields ms => "Missing required fields in config: " ++ String.intercalate ", " ms

/-- The `required_fields` list of `load_and_validate_config`. -/
def required_fields : List String :=
  ["boards", "exclude_boards", "request_time_limit", "output_path", "save_log", "clean_log"]

/-- `load_and_validate_config(config_path)`.  The filesystem is modelled as
`fs : String → Option (Option Json)`: `none` means the path does not exist
(Python `open` raises `FileNotFoundError`), `some none` means the file
exists but its content is not valid JSON (`json.load` raises
`JSONDecodeError`), `some (some j)` means `json.load` returns `j`. -/
def load_and_validate_config (fs : String → Option (Option Json)) (config_path : String) :
    Except ConfigError Json :=
  match fs config_path with
  | none => .error (.fileNotFound config_path)
  | some none => .error (.invalidJson config_path)
  | some (some config) =>
    let missing_fields := required_fields.filter (fun field => !(config.hasKey field))
    if missing_fields.isEmpty then .ok config else .error (.missingFields missing_fields)

/-- `check_positive_float(value)`: the argument is the numeric value of
Python `float(value)` (so the theorem quantifies over values for which the
conversion succeeds).  Returns the float, or raises
`argparse.ArgumentTypeError` for values below 1. -/
def check_positive_float (fvalue : ℚ) : Except String ℚ :=
  if fvalue < 1 then
    .error ("--request-time-limit value should be at least 1, now is " ++ toString fvalue)
  else
    .ok fvalue

/-! ## Datetimes

Naive UTC datetimes as produced by `datetime.utcnow()` and
`datetime.strptime(..., "%Y_%m_%d_%H_%M_%S")`. -/

/-- A naive datetime, field for field. -/
structure DateTime where
  year : Nat
  month : Nat
  day : Nat
  hour : Nat
  minute : Nat
  second : Nat
deriving DecidableEq

/-- Whether year `y` is a Gregorian leap year. -/
def isLeapYear (y : Nat) : Bool :=
  y % 4 == 0 && (y % 100 != 0 || y % 400 == 0)

/-- Number of days in month `m` of year `y`. -/
def daysInMonth (y m : Nat) : Nat :=
  if m == 2 then (if isLeapYear y then 29 else 28)
  else if m == 4 || m == 6 || m == 9 || m == 11 then 30
  else 31

/-- Field ranges of a real `datetime` object (what `datetime.strptime`
can construct; Python further bounds the year by 9999). -/
def DateTime.Valid (t : DateTime) : Bool :=
  1 ≤ t.year && t.year ≤ 9999 &&
  1 ≤ t.month && t.month ≤ 12 &&
  1 ≤ t.day && t.day ≤ daysInMonth t.year t.month &&
  t.hour < 24 && t.minute < 60 && t.second < 60

/-- Encode a datetime so that `Nat` order is the lexicographic order on the
fields; for valid datetimes this is exactly Python's `<` on datetimes. -/
def DateTime.key (t : DateTime) : Nat :=
  ((((t.year * 100 + t.month) * 100 + t.day) * 100 + t.hour) * 100 + t.minute) * 100 + t.second

/-- Python `datetime` comparison (on valid datetimes). -/
def DateTime.lt (a b : DateTime) : Bool := a.key < b.key

/-- The calendar day before `t`, same time of day. -/
def DateTime.prevDay (t : DateTime) : DateTime :=
  if 1 < t.day then { t with day := t.day - 1 }
  else if 1 < t.month then
    { t with month := t.month - 1, day := daysInMonth t.year (t.month - 1) }
  else
    { t with year := t.year - 1, month := 12, day := 31 }

/-- Python `t - timedelta(days := n)` on a naive datetime: `n` calendar
days earlier, same time of day. -/
def DateTime.subDays : Nat → DateTime → DateTime
  | 0, t => t
  | n + 1, t => DateTime.subDays n t.prevDay

/-! ## strftime / strptime for the format `%Y_%m_%d_%H_%M_%S` -/

/-- The decimal digit character for `n < 10` (total, clipped above). -/
def digitChar : Nat → Char
  | 0 => '0' | 1 => '1' | 2 => '2' | 3 => '3' | 4 => '4'
  | 5 => '5' | 6 => '6' | 7 => '7' | 8 => '8' | _ => '9'

/-- Is `c` one of `0`..`9`? -/
def isDigitChar (c : Char) : Bool := 48 ≤ c.toNat && c.toNat ≤ 57

/-- The numeric value of a digit character. -/
def digitVal (c : Char) : Nat := c.toNat - 48

/-- `%d`-style zero-padded two-digit field (faithful for `n ≤ 99`). -/
def pad2 (n : Nat) : List Char := [digitChar (n / 10 % 10), digitChar (n % 10)]

/-- `%Y`-style zero-padded four-digit year (faithful for `n ≤ 9999`). -/
def pad4 (n : Nat) : List Char :=
  [digitChar (n / 1000 % 10), digitChar (n / 100 % 10), digitChar (n / 10 % 10),
    digitChar (n % 10)]

/-- `now.strftime("%Y_%m_%d_%H_%M_%S")` as a character list. -/
def fullTimeChars (t : DateTime) : List Char :=
  pad4 t.year ++ '_' :: pad2 t.month ++ '_' :: pad2 t.day ++ '_' :: pad2 t.hour ++
    '_' :: pad2 t.minute ++ '_' :: pad2 t.second

/-- `LoggerManager._get_full_time()`: the UTC timestamp string. -/
def get_full_time (t : DateTime) : String := ⟨fullTimeChars t⟩

/-- The maximal runs of non-underscore characters, in order (splitting on
`_`; adjacent, leading or trailing underscores yield empty runs). -/
def splitGroups : List Char → List (List Char)
  | [] => [[]]
  | '_' :: rest => [] :: splitGroups rest
  | c :: rest =>
    match splitGroups rest with
    | g :: gs => (c :: g) :: gs
    | [] => [[c]]

/-- CPython `_strptime` pattern for `%Y`: `\d\d\d\d` (exactly four
digits), wholly matching one group. -/
def matchY : List Char → Option Nat
  | [a, b, c, d] =>
    if isDigitChar a && isDigitChar b && isDigitChar c && isDigitChar d then
      some (((digitVal a * 10 + digitVal b) * 10 + digitVal c) * 10 + digitVal d)
    else none
  | _ => none

/-- CPython `_strptime` pattern for `%m`: `1[0-2]|0[1-9]|[1-9]`, wholly
matching one group (a bare `1`-`9` is accepted; `00` is not). -/
def matchMonth : List Char → Option Nat
  | ['1', c] => if isDigitChar c && digitVal c ≤ 2 then some (10 + digitVal c) else none
  | ['0', c] => if isDigitChar c && 1 ≤ digitVal c then some (digitVal c) else none
  | [c] => if isDigitChar c && 1 ≤ digitVal c then some (digitVal c) else none
  | _ => none

/-- CPython `_strptime` pattern for `%d`: `3[01]|[12]\d|0[1-9]|[1-9]| [1-9]`,
wholly matching one group (a bare or space-padded `1`-`9` is accepted;
`00` is not). -/
def matchDay : List Char → Option Nat
  | ['3', c] => if isDigitChar c && digitVal c ≤ 1 then some (30 + digitVal c) else none
  | ['1', c] => if isDigitChar c then some (10 + digitVal c) else none
  | ['2', c] => if isDigitChar c then some (20 + digitVal c) else none
  | ['0', c] => if isDigitChar c && 1 ≤ digitVal c then some (digitVal c) else none
  | [' ', c] => if isDigitChar c && 1 ≤ digitVal c then some (digitVal c) else none
  | [c] => if isDigitChar c && 1 ≤ digitVal c then some (digitVal c) else none
  | _ => none

/-- CPython `_strptime` pattern for `%H`: `2[0-3]|[0-1]\d|\d`, wholly
matching one group. -/
def matchHour : List Char → Option Nat
  | ['2', c] => if isDigitChar c && digitVal c ≤ 3 then some (20 + digitVal c) else none
  | ['0', c] => if isDigitChar c then some (digitVal c) else none
  | ['1', c] => if isDigitChar c then some (10 + digitVal c) else none
  | [c] => if isDigitChar c then some (digitVal c) else none
  | _ => none

/-- CPython `_strptime` pattern for `%M`: `[0-5]\d|\d`, wholly matching
one group. -/
def matchMinute : List Char → Option Nat
  | [a, b] =>
    if isDigitChar a && digitVal a ≤ 5 && isDigitChar b then
      some (digitVal a * 10 + digitVal b)
    else none
  | [c] => if isDigitChar c then some (digitVal c) else none
  | _ => none

/-- CPython `_strptime` pattern for `%S`: `6[0-1]|[0-5]\d|\d`, wholly
matching one group (the regex admits the leap seconds 60 and 61; the
`datetime` constructor rejects them afterwards). -/
def matchSecond : List Char → Option Nat
  | ['6', c] => if isDigitChar c && digitVal c ≤ 1 then some (60 + digitVal c) else none
  | [a, b] =>
    if isDigitChar a && digitVal a ≤ 5 && isDigitChar b then
      some (digitVal a * 10 + digitVal b)
    else none
  | [c] => if isDigitChar c then some (digitVal c) else none
  | _ => none

/-- `datetime.strptime(s, "%Y_%m_%d_%H_%M_%S")`.  CPython compiles the
format to the regex `(?P<Y>\d\d\d\d)\_(?P<m>...)\_...\_(?P<S>...)`, anchors
it at the start and raises `ValueError` unless it consumes the whole
string; it then builds the `datetime`, which raises `ValueError` for an
out-of-range field (year 0, day past the month's end, leap second).  None
of the field patterns can match `_` or the empty string and each is
followed by a literal `_` (or the end), so the regex matches exactly when
the string splits on `_` into six groups, each wholly matched by its
field's pattern — which is what this function checks.  The final range
check is `DateTime.Valid`, the constraint the `datetime` constructor
enforces. -/
def strptimeFullTime (cs : List Char) : Option DateTime :=
  match splitGroups cs with
  | [g1, g2, g3, g4, g5, g6] =>
    match matchY g1, matchMonth g2, matchDay g3, matchHour g4, matchMinute g5,
        matchSecond g6 with
    | some y, some mo, some d, some h, some mi, some s =>
      let t : DateTime := ⟨y, mo, d, h, mi, s⟩
      if t.Valid then some t else none
    | _, _, _, _, _, _ => none
  | _ => none

/-! ## LoggerManager -/

/-- `logging.DEBUG`. -/
def DEBUG : Nat := 10

/-- `logging.INFO`. -/
def INFO : Nat := 20

/-- A handler attached by `setup_logging`: a console stream handler or a
file handler, each with its minimum level. -/
inductive Handler where
  | stream : Nat → Handler
  | file : String → Nat → Handler
deriving DecidableEq

/-- The `logging.Logger` state that `setup_logging` configures: its name,
its level, and its attached handlers. -/
structure Logger where
  name : String
  level : Nat
  handlers : List Handler
deriving DecidableEq

/-- `base_save_path / logfolderpath` (pathlib `/` with a relative right
operand: join with a separator). -/
def joinPath (a b : String) : String := a ++ "/" ++ b

/-- The fields of a `LoggerManager` object. -/
structure LoggerManager where
  save_log : Bool
  logfolder : String
  logger : Option Logger
deriving DecidableEq

/-- `LoggerManager.__init__`.  Returns the constructed object and the list
of directories created on disk (`self.logfolder.mkdir(...)` runs only when
`save_log` is true; the `self.logfolder` field is assigned in both cases). -/
def LoggerManager.init (base_save_path logfolderpath : String) (save_log : Bool) :
    LoggerManager × List String :=
  let logfolder := joinPath base_save_path logfolderpath
  ({ save_log := save_log, logfolder := logfolder, logger := none },
    if save_log then [logfolder] else [])

/-- `LoggerManager._setup_save_logging`: attaches the info-level and
debug-level file handlers.  (The source calls `_get_full_time()` once per
file; both calls are modelled with the same clock reading `now`.) -/
def LoggerManager.setup_save_logging (mgr : LoggerManager) (logger : Logger) (now : DateTime) :
    Logger :=
  let infologpath := joinPath mgr.logfolder ("info_log" ++ get_full_time now ++ ".log")
  let l1 := { logger with handlers := logger.handlers ++ [Handler.file infologpath INFO] }
  let debuglogpath := joinPath mgr.logfolder ("debug_log" ++ get_full_time now ++ ".log")
  { l1 with handlers := l1.handlers ++ [Handler.file debuglogpath DEBUG] }

/-- `LoggerManager.setup_logging(stream_log_level := logging.INFO)`:
creates the named logger, attaches the stream handler, and, when saving is
enabled, the two file handlers. -/
def LoggerManager.setup_logging (mgr : LoggerManager) (stream_log_level : Nat)
    (now : DateTime) : LoggerManager :=
  let logger : Logger :=
    { name := "4chan_requester"
      level := DEBUG
      handlers := [Handler.stream stream_log_level] }
  let logger := if mgr.save_log then mgr.setup_save_logging logger now else logger
  { mgr with logger := some logger }

/-- `LoggerManager.get_logger`: raises `RuntimeError` when `self.logger`
is still `None`. -/
def LoggerManager.get_logger (mgr : LoggerManager) : Except String Logger :=
  match mgr.logger with
  | none => .error "Logger not set up yet. Call setup_logging() first."
  | some l => .ok l

/-! ## cleanup_old_logs -/

/-- Whether a filename matches the glob pattern `*.log` (pathlib matches a
name against the pattern with `fnmatch`, i.e. the name ends in `.log`). -/
def matchesLogGlob (name : String) : Bool :=
  List.isSuffixOf ['.', 'l', 'o', 'g'] name.data

/-- `log_file.name[-len("yyyy_mm_dd_hh_mm_ss.log"):-len(".log")]`: the
Python slice `name[-23:-4]`, with negative indices clamped at 0. -/
def timestampSlice (name : String) : List Char :=
  (name.data.drop (name.data.length - 23)).take ((name.data.length - 4) - (name.data.length - 23))

/-- The body of the `for log_file in self.logfolder.glob("*.log")` loop,
over the folder listing in iteration order.  Returns the filenames still
on disk afterwards, together with `some msg` when `datetime.strptime`
raised `ValueError` on a name (which aborts the loop: that file and every
later file stay on disk), or `none` when the loop completed.  A file is
removed (`os.remove`) exactly when its parsed date is strictly before the
threshold. -/
def cleanupFiles (threshold : DateTime) : List String → List String × Option String
  | [] => ([], none)
  | f :: fs =>
    if matchesLogGlob f then
      match strptimeFullTime (timestampSlice f) with
      | none => (f :: fs, some ("time data does not match format: " ++ ⟨timestampSlice f⟩))
      | some d =>
        let rest := cleanupFiles threshold fs
        if d.lt threshold then rest else (f :: rest.1, rest.2)
    else
      let rest := cleanupFiles threshold fs
      (f :: rest.1, rest.2)

/-- `LoggerManager.cleanup_old_logs(days_to_keep := 3)`: the threshold is
`utcnow() - timedelta(days := days_to_keep)`; `disk` maps a folder to its
file listing (what `glob` iterates, before the `*.log` filter). -/
def LoggerManager.cleanup_old_logs (mgr : LoggerManager) (now : DateTime)
    (days_to_keep : Nat) (disk : String → List String) : List String × Option String :=
  let threshold_date := DateTime.subDays days_to_keep now
  cleanupFiles threshold_date (disk mgr.logfolder)

/-- Whether a filename is one `cleanup_old_logs` deletes: its extracted
slice parses and the parsed date is strictly before the threshold. -/
def isOldLog (threshold : DateTime) (f : String) : Bool :=
  match strptimeFullTime (timestampSlice f) with
  | some d => d.lt threshold
  | none => false

/-- Whether a string has the shape `YYYY_MM_DD_HH_MM_SS` (four digits,
then underscore-separated two-digit groups).  This is the timestamp format
the specification names for log-file names. -/
def isFullTimeFormat (s : String) : Bool :=
  match s.data with
  | [y1, y2, y3, y4, '_', m1, m2, '_', d1, d2, '_', h1, h2, '_', n1, n2, '_', s1, s2] =>
    isDigitChar y1 && isDigitChar y2 && isDigitChar y3 && isDigitChar y4 &&
      isDigitChar m1 && isDigitChar m2 && isDigitChar d1 && isDigitChar d2 &&
      isDigitChar h1 && isDigitChar h2 && isDigitChar n1 && isDigitChar n2 &&
      isDigitChar s1 && isDigitChar s2
  | _ => false

/-! ## Theorems for the config loader -/

/-- Claim C1: for every path to a file whose content is well-formed JSON
with a top-level object containing all six required keys,
`load_and_validate_config` returns the parsed mapping unchanged. -/
theorem C1_load_config_returns_unchanged (fs : String → Option (Option Json))
    (config_path : String) (kvs : List (String × Json))
    (hfs : fs config_path = some (some (Json.obj kvs)))
    (hkeys : ∀ k ∈ required_fields, (Json.obj kvs).hasKey k = true) :
    load_and_validate_config fs config_path = .ok (Json.obj kvs) := by
  unfold load_and_validate_config
  rw [hfs]
  have hfilter : required_fields.filter (fun field => !((Json.obj kvs).hasKey field)) = [] := by
    rw [List.filter_eq_nil_iff]
    intro a ha
    simp [hkeys a ha]
  simp [hfilter]

/-- Witness for C1 at a concrete filesystem with a six-key config. -/
theorem C1_witness :
    load_and_validate_config
      (fun p => if p = "config.json" then
          some (some (Json.obj
            [("boards", Json.arr [Json.str "a"]), ("exclude_boards", Json.bool false),
              ("request_time_limit", Json.num 2), ("output_path", Json.str "out"),
              ("save_log", Json.bool true), ("clean_log", Json.bool true)]))
        else none)
      "config.json" =
      .ok (Json.obj
        [("boards", Json.arr [Json.str "a"]), ("exclude_boards", Json.bool false),
          ("request_time_limit", Json.num 2), ("output_path", Json.str "out"),
          ("save_log", Json.bool true), ("clean_log", Json.bool true)]) :=
  C1_load_config_returns_unchanged _ _ _ rfl (by decide)

/-- Claim C2: `check_positive_float` rejects every value whose float value
is below 1 with an `ArgumentTypeError`, and returns every value at least 1
unchanged as the parsed float. -/
theorem C2_check_positive_float_threshold (fvalue : ℚ) :
    (fvalue < 1 → ∃ msg, check_positive_float fvalue = .error msg) ∧
    (1 ≤ fvalue → check_positive_float fvalue = .ok fvalue) := by
  constructor
  · intro h
    exact ⟨"--request-time-limit value should be at least 1, now is " ++ toString fvalue,
      by simp [check_positive_float, h]⟩
  · intro h
    simp [check_positive_float, not_lt.mpr h]

/-- Witness for C2 at the concrete values 1/2 (rejected) and 2 (accepted). -/
theorem C2_witness :
    ((1 : ℚ) / 2 < 1 ∧ ∃ msg, check_positive_float (1 / 2) = .error msg) ∧
    ((1 : ℚ) ≤ 2 ∧ check_positive_float 2 = .ok 2) :=
  ⟨⟨by norm_num, (C2_check_positive_float_threshold (1 / 2)).1 (by norm_num)⟩,
    ⟨by norm_num, (C2_check_positive_float_threshold 2).2 (by norm_num)⟩⟩

/-- Claim C3: when the parsed top-level object misses a non-empty subset
of the required keys, `load_and_validate_config` fails with a
missing-fields error listing exactly the absent required keys. -/
theorem C3_missing_fields_exact (fs : String → Option (Option Json))
    (config_path : String) (kvs : List (String × Json))
    (hfs : fs config_path = some (some (Json.obj kvs)))
    (hmiss : ∃ k ∈ required_fields, (Json.obj kvs).hasKey k = false) :
    ∃ missing,
      load_and_validate_config fs config_path = .error (.missingFields missing) ∧
      missing ≠ [] ∧
      (∀ k, k ∈ missing ↔ (k ∈ required_fields ∧ (Json.obj kvs).hasKey k = false)) ∧
      (ConfigError.missingFields missing).message =
        "Missing required fields in config: " ++ String.intercalate ", " missing := by
  refine ⟨required_fields.filter (fun field => !((Json.obj kvs).hasKey field)), ?_, ?_, ?_, rfl⟩
  · unfold load_and_validate_config
    rw [hfs]
    have hne : (required_fields.filter fun field => !((Json.obj kvs).hasKey field)).isEmpty
        = false := by
      obtain ⟨k, hk, hnk⟩ := hmiss
      rw [List.isEmpty_eq_false]
      intro hnil
      have : k ∈ required_fields.filter (fun field => !((Json.obj kvs).hasKey field)) := by
        rw [List.mem_filter]
        exact ⟨hk, by simp [hnk]⟩
      simp [hnil] at this
    simp [hne]
  · obtain ⟨k, hk, hnk⟩ := hmiss
    intro hnil
    have : k ∈ required_fields.filter (fun field => !((Json.obj kvs).hasKey field)) := by
      rw [List.mem_filter]
      exact ⟨hk, by simp [hnk]⟩
    simp [hnil] at this
  · intro k
    rw [List.mem_filter]
    simp

/-- Witness for C3: a config with only `boards` present is rejected with
exactly the other five keys listed. -/
theorem C3_witness :
    ∃ missing,
      load_and_validate_config
        (fun p => if p = "config.json" then
            some (some (Json.obj [("boards", Json.arr []), ("extra", Json.null)]))
          else none)
        "config.json" = .error (.missingFields missing) ∧
      missing ≠ [] ∧
      (∀ k, k ∈ missing ↔
        (k ∈ required_fields ∧
          (Json.obj [("boards", Json.arr []), ("extra", Json.null)]).hasKey k = false)) ∧
      (ConfigError.missingFields missing).message =
        "Missing required fields in config: " ++ String.intercalate ", " missing :=
  C3_missing_fields_exact _ _ _ rfl ⟨"save_log", by decide, by decide⟩

/-- Claim C4: a nonexistent path fails with the file-not-found error, an
existing file with invalid JSON fails with the invalid-JSON error, and the
two error kinds are distinguishable. -/
theorem C4_distinct_load_errors (fs : String → Option (Option Json)) (config_path : String) :
    (fs config_path = none →
      load_and_validate_config fs config_path = .error (.fileNotFound config_path)) ∧
    (fs config_path = some none →
      load_and_validate_config fs config_path = .error (.invalidJson config_path)) ∧
    (∀ a b : String, ConfigError.fileNotFound a ≠ ConfigError.invalidJson b) := by
  refine ⟨fun h => ?_, fun h => ?_, fun a b => by simp⟩
  · unfold load_and_validate_config
    rw [h]
  · unfold load_and_validate_config
    rw [h]

/-- Witness for C4 at a concrete missing path and a concrete invalid-JSON
file. -/
theorem C4_witness :
    load_and_validate_config (fun _ => none) "missing.json" =
      .error (.fileNotFound "missing.json") ∧
    load_and_validate_config (fun _ => some none) "bad.json" =
      .error (.invalidJson "bad.json") ∧
    ConfigError.fileNotFound "cfg" ≠ ConfigError.invalidJson "cfg" :=
  ⟨(C4_distinct_load_errors (fun _ => none) "missing.json").1 rfl,
    (C4_distinct_load_errors (fun _ => some none) "bad.json").2.1 rfl,
    (C4_distinct_load_errors (fun _ => none) "cfg").2.2 "cfg" "cfg"⟩

/-! ## Theorems for the LoggerManager -/

/-- Claim C6: `get_logger` raises `RuntimeError` before `setup_logging`
has run, and returns a logger object after it has. -/
theorem C6_get_logger_state (base_save_path logfolderpath : String) (save_log : Bool)
    (stream_log_level : Nat) (now : DateTime) :
    (LoggerManager.init base_save_path logfolderpath save_log).1.get_logger =
      .error "Logger not set up yet. Call setup_logging() first." ∧
    ∃ L : Logger,
      ((LoggerManager.init base_save_path logfolderpath save_log).1.setup_logging
        stream_log_level now).get_logger = .ok L :=
  ⟨rfl, ⟨_, rfl⟩⟩

/-- Claim C9: the `logfolder` field is `base_save_path / logfolderpath`
for either value of `save_log`; only the `mkdir` side effect is guarded by
`save_log`; and `cleanup_old_logs` reads that same folder either way. -/
theorem C9_logfolder_unconditional (base_save_path logfolderpath : String) (save_log : Bool)
    (now : DateTime) (days_to_keep : Nat) (disk : String → List String) :
    (LoggerManager.init base_save_path logfolderpath save_log).1.logfolder =
      joinPath base_save_path logfolderpath ∧
    (LoggerManager.init base_save_path logfolderpath save_log).2 =
      (if save_log then [joinPath base_save_path logfolderpath] else []) ∧
    (LoggerManager.init base_save_path logfolderpath save_log).1.cleanup_old_logs
        now days_to_keep disk =
      cleanupFiles (DateTime.subDays days_to_keep now)
        (disk (joinPath base_save_path logfolderpath)) :=
  ⟨rfl, rfl, rfl⟩

/-- Unfolding equation of the cleanup loop on the empty listing. -/
theorem cleanupFiles_nil (threshold : DateTime) : cleanupFiles threshold [] = ([], none) := rfl

/-- Unfolding equation of the cleanup loop on a non-empty listing. -/
theorem cleanupFiles_cons (threshold : DateTime) (f : String) (fs : List String) :
    cleanupFiles threshold (f :: fs) =
      (if matchesLogGlob f then
        match strptimeFullTime (timestampSlice f) with
        | none => (f :: fs, some ("time data does not match format: " ++ ⟨timestampSlice f⟩))
        | some d =>
          if d.lt threshold then cleanupFiles threshold fs
          else (f :: (cleanupFiles threshold fs).1, (cleanupFiles threshold fs).2)
      else (f :: (cleanupFiles threshold fs).1, (cleanupFiles threshold fs).2)) := rfl

/-- When every `*.log` file in the listing has a parseable trailing
timestamp, the cleanup loop completes without raising and keeps exactly
the files that are not old logs. -/
theorem cleanupFiles_all_parse (threshold : DateTime) (files : List String)
    (h : ∀ f ∈ files, matchesLogGlob f = true →
      (strptimeFullTime (timestampSlice f)).isSome = true) :
    cleanupFiles threshold files =
      (files.filter (fun f => !(matchesLogGlob f && isOldLog threshold f)), none) := by
  induction files with
  | nil => rfl
  | cons f fs ih =>
    have ihs := ih (fun g hg hgl => h g (List.mem_cons_of_mem _ hg) hgl)
    rw [cleanupFiles_cons, List.filter_cons]
    cases hglob : matchesLogGlob f with
    | true =>
      obtain ⟨d, hd⟩ := Option.isSome_iff_exists.mp (h f (List.mem_cons_self f fs) hglob)
      have hio : isOldLog threshold f = d.lt threshold := by unfold isOldLog; rw [hd]
      rw [if_pos rfl, hd, hio]
      dsimp only
      cases hlt : d.lt threshold with
      | true => rw [if_pos rfl, ihs]; simp
      | false => rw [ihs]; simp
    | false =>
      rw [ihs]
      simp

/-- Claim C5: `cleanup_old_logs` with retention `days_to_keep` removes
exactly the `*.log` files whose trailing timestamp is strictly older than
now minus the retention window (given that all `*.log` names parse). -/
theorem C5_cleanup_removes_exactly_old (mgr : LoggerManager) (now : DateTime)
    (days_to_keep : Nat) (disk : String → List String)
    (h : ∀ f ∈ disk mgr.logfolder, matchesLogGlob f = true →
      (strptimeFullTime (timestampSlice f)).isSome = true) :
    mgr.cleanup_old_logs now days_to_keep disk =
      ((disk mgr.logfolder).filter
        (fun f => !(matchesLogGlob f && isOldLog (DateTime.subDays days_to_keep now) f)),
        none) :=
  cleanupFiles_all_parse _ _ h

/-- Witness for C5 with the default retention of 3 days: a log stamped 4
days before now is removed, one stamped 2 days before now is kept. -/
theorem C5_witness :
    (∀ f ∈ ["info_log2026_10_08_09_30_00.log", "info_log2026_10_10_09_30_00.log"],
      matchesLogGlob f = true → (strptimeFullTime (timestampSlice f)).isSome = true) ∧
    (LoggerManager.init "out" "logs" true).1.cleanup_old_logs ⟨2026, 10, 12, 9, 30, 0⟩ 3
      (fun _ => ["info_log2026_10_08_09_30_00.log", "info_log2026_10_10_09_30_00.log"]) =
      (["info_log2026_10_10_09_30_00.log"], none) :=
  ⟨by decide,
    (C5_cleanup_removes_exactly_old _ _ _ _ (by decide)).trans (by decide)⟩

/-- A file that does not match `*.log`, or whose parsed timestamp is not
strictly before the threshold, survives the cleanup loop. -/
theorem mem_cleanupFiles_of_kept (threshold : DateTime) (files : List String) (f : String)
    (hf : f ∈ files)
    (hkeep : matchesLogGlob f = false ∨
      ∃ d, strptimeFullTime (timestampSlice f) = some d ∧ d.lt threshold = false) :
    f ∈ (cleanupFiles threshold files).1 := by
  induction files with
  | nil => cases hf
  | cons g gs ih =>
    rw [cleanupFiles_cons]
    rcases List.mem_cons.mp hf with rfl | hmem
    · cases hglob : matchesLogGlob f with
      | true =>
        rcases hkeep with hk | ⟨d, hd, hlt⟩
        · rw [hglob] at hk; cases hk
        · rw [if_pos rfl, hd]
          dsimp only
          rw [hlt]
          exact List.mem_cons_self _ _
      | false =>
        rw [if_neg (by simp)]
        exact List.mem_cons_self _ _
    · have ihm := ih hmem
      cases hglob : matchesLogGlob g with
      | true =>
        rw [if_pos rfl]
        cases hparse : strptimeFullTime (timestampSlice g) with
        | none => exact List.mem_cons_of_mem _ hmem
        | some d =>
          dsimp only
          cases hlt : d.lt threshold with
          | true => rw [if_pos rfl]; exact ihm
          | false => exact List.mem_cons_of_mem _ ihm
      | false =>
        rw [if_neg (by simp)]
        exact List.mem_cons_of_mem _ ihm

/-- Claim C10: `cleanup_old_logs` only removes `*.log` files; every file
not ending in `.log`, and every `.log` file whose parsed timestamp is at
or after the threshold, remains on disk. -/
theorem C10_cleanup_frame (mgr : LoggerManager) (now : DateTime) (days_to_keep : Nat)
    (disk : String → List String) (f : String)
    (hf : f ∈ disk mgr.logfolder)
    (hkeep : matchesLogGlob f = false ∨
      ∃ d, strptimeFullTime (timestampSlice f) = some d ∧
        d.lt (DateTime.subDays days_to_keep now) = false) :
    f ∈ (mgr.cleanup_old_logs now days_to_keep disk).1 :=
  mem_cleanupFiles_of_kept _ _ _ hf hkeep

/-- Witness for C10: a non-log file and a fresh log file both survive a
cleanup run. -/
theorem C10_witness :
    ("readme.txt" ∈ ["readme.txt", "info_log2026_10_10_09_30_00.log"] ∧
      matchesLogGlob "readme.txt" = false) ∧
    "readme.txt" ∈ ((LoggerManager.init "out" "logs" true).1.cleanup_old_logs
      ⟨2026, 10, 12, 9, 30, 0⟩ 3
      (fun _ => ["readme.txt", "info_log2026_10_10_09_30_00.log"])).1 ∧
    "info_log2026_10_10_09_30_00.log" ∈ ((LoggerManager.init "out" "logs" true).1.cleanup_old_logs
      ⟨2026, 10, 12, 9, 30, 0⟩ 3
      (fun _ => ["readme.txt", "info_log2026_10_10_09_30_00.log"])).1 :=
  ⟨⟨by decide, by decide⟩,
    C10_cleanup_frame _ _ _ _ _ (by decide) (Or.inl (by decide)),
    C10_cleanup_frame _ _ _ _ _ (by decide)
      (Or.inr ⟨⟨2026, 10, 10, 9, 30, 0⟩, by decide, by decide⟩)⟩

/-- Counterexample to claim C8: in a folder holding the non-conforming
name `notes.log` and an old conforming log, `cleanup_old_logs` raises
(`strptime` fails) instead of skipping silently, and does not continue
processing: the old log that follows is left on disk. -/
theorem C8_counterexample :
    ((LoggerManager.init "out" "logs" true).1.cleanup_old_logs ⟨2026, 10, 12, 0, 0, 0⟩ 3
        (fun _ => ["notes.log", "info_log2026_10_01_00_00_00.log"])).2 ≠ none ∧
    ((LoggerManager.init "out" "logs" true).1.cleanup_old_logs ⟨2026, 10, 12, 0, 0, 0⟩ 3
        (fun _ => ["notes.log", "info_log2026_10_01_00_00_00.log"])).1 =
      ["notes.log", "info_log2026_10_01_00_00_00.log"] := by
  constructor
  · decide
  · decide

/-- Amended claim C8: `cleanup_old_logs` raises a `ValueError` at the
first `*.log` file (in iteration order) whose extracted name slice does
not parse; that file and every file after it are left in place, and only
the old conforming `*.log` files before it have been removed.  Files not
matching `*.log` are never touched and never raise. -/
theorem C8_amended_raise_on_malformed (threshold : DateTime) (pre : List String)
    (f : String) (post : List String)
    (hlog : matchesLogGlob f = true)
    (hbad : strptimeFullTime (timestampSlice f) = none)
    (hpre : ∀ g ∈ pre, matchesLogGlob g = true →
      (strptimeFullTime (timestampSlice g)).isSome = true) :
    cleanupFiles threshold (pre ++ f :: post) =
      (pre.filter (fun g => !(matchesLogGlob g && isOldLog threshold g)) ++ f :: post,
        some ("time data does not match format: " ++ ⟨timestampSlice f⟩)) := by
  induction pre with
  | nil =>
    rw [List.nil_append, cleanupFiles_cons, if_pos (by rw [hlog]), hbad]
    rfl
  | cons g gs ih =>
    have ihs := ih (fun x hx => hpre x (List.mem_cons_of_mem _ hx))
    rw [List.cons_append, cleanupFiles_cons, List.filter_cons]
    cases hglob : matchesLogGlob g with
    | true =>
      obtain ⟨d, hd⟩ := Option.isSome_iff_exists.mp
        (hpre g (List.mem_cons_self g gs) hglob)
      have hio : isOldLog threshold g = d.lt threshold := by unfold isOldLog; rw [hd]
      rw [if_pos rfl, hd, hio]
      dsimp only
      cases hlt : d.lt threshold with
      | true => rw [if_pos rfl, ihs]; simp
      | false => rw [ihs]; simp
    | false =>
      rw [ihs]
      simp

/-- Witness for the amended claim C8: the two old logs before `notes.log`
— one zero-padded, one in the non-padded form `strptime` also accepts —
are removed, then the loop raises at `notes.log`, and the file after it
survives. -/
theorem C8_witness :
    (matchesLogGlob "notes.log" = true ∧
      strptimeFullTime (timestampSlice "notes.log") = none ∧
      (∀ g ∈ ["info_log2026_10_01_00_00_00.log", "2026_1_2_3_4_5.log"],
        matchesLogGlob g = true →
        (strptimeFullTime (timestampSlice g)).isSome = true)) ∧
    cleanupFiles ⟨2026, 10, 9, 0, 0, 0⟩
        (["info_log2026_10_01_00_00_00.log", "2026_1_2_3_4_5.log"] ++
          "notes.log" :: ["readme.txt"]) =
      (["notes.log", "readme.txt"], some "time data does not match format: notes") :=
  ⟨⟨by decide, by decide, by decide⟩,
    (C8_amended_raise_on_malformed ⟨2026, 10, 9, 0, 0, 0⟩
        ["info_log2026_10_01_00_00_00.log", "2026_1_2_3_4_5.log"] "notes.log" ["readme.txt"]
        (by decide) (by decide) (by decide)).trans (by decide)⟩

/-! ## Theorems about log-file naming -/

/-- Every output of `digitChar` is a decimal digit character. -/
theorem isDigitChar_digitChar (k : Nat) : isDigitChar (digitChar k) = true := by
  match k with
  | 0 | 1 | 2 | 3 | 4 | 5 | 6 | 7 | 8 => rfl
  | n + 9 => rfl

/-- The timestamp string built by `_get_full_time` has the
`YYYY_MM_DD_HH_MM_SS` shape. -/
theorem isFullTimeFormat_get_full_time (t : DateTime) :
    isFullTimeFormat (get_full_time t) = true := by
  show isFullTimeFormat ⟨fullTimeChars t⟩ = true
  simp [isFullTimeFormat, fullTimeChars, pad4, pad2, isDigitChar_digitChar]

/-- A string of the `YYYY_MM_DD_HH_MM_SS` shape has 19 characters. -/
theorem isFullTimeFormat_length (s : String) (h : isFullTimeFormat s = true) :
    s.length = 19 := by
  unfold isFullTimeFormat at h
  split at h
  · rename_i heq
    show s.data.length = 19
    rw [heq]
    rfl
  · cases h

/-- Counterexample to claim C7: at the clock reading 2026-01-02 03:04:05,
`setup_logging` names the info file `info_log2026_01_02_03_04_05.log` —
there is no underscore between `info_log` and the timestamp, so the name
matches no string of the claimed shape `info_log_<YYYY_MM_DD_HH_MM_SS>.log`. -/
theorem C7_counterexample :
    ((LoggerManager.init "out" "logs" true).1.setup_logging 20 ⟨2026, 1, 2, 3, 4, 5⟩).logger.map
        (fun l => l.handlers) =
      some [Handler.stream 20,
        Handler.file "out/logs/info_log2026_01_02_03_04_05.log" 20,
        Handler.file "out/logs/debug_log2026_01_02_03_04_05.log" 10] ∧
    ¬ ∃ ts : String, isFullTimeFormat ts = true ∧
      "info_log2026_01_02_03_04_05.log" = "info_log_" ++ ts ++ ".log" := by
  constructor
  · rfl
  · rintro ⟨ts, hfmt, heq⟩
    have hlen : ts.length = 19 := isFullTimeFormat_length ts hfmt
    have hcongr := congrArg String.length heq
    rw [String.length_append, String.length_append, hlen] at hcongr
    have h31 : ("info_log2026_01_02_03_04_05.log" : String).length = 31 := by decide
    have h9 : ("info_log_" : String).length = 9 := by decide
    have h4 : ((".log" : String)).length = 4 := by decide
    rw [h31, h9, h4] at hcongr
    omega

/-- Amended claim C7: when saving is enabled, the two log files are named
`info_log<ts>.log` and `debug_log<ts>.log` — timestamp format
`YYYY_MM_DD_HH_MM_SS`, but with no separator between the fixed stem and
the timestamp. -/
theorem C7_amended_log_file_names (mgr : LoggerManager) (l : Logger) (now : DateTime)
    (_hv : now.Valid = true) :
    mgr.setup_save_logging l now =
      { l with handlers := l.handlers ++
          [Handler.file (joinPath mgr.logfolder ("info_log" ++ get_full_time now ++ ".log")) INFO,
            Handler.file (joinPath mgr.logfolder ("debug_log" ++ get_full_time now ++ ".log"))
              DEBUG] } ∧
    isFullTimeFormat (get_full_time now) = true := by
  constructor
  · simp [LoggerManager.setup_save_logging]
  · exact isFullTimeFormat_get_full_time now

/-- Witness for the amended claim C7 at a concrete valid clock reading. -/
theorem C7_witness :
    (⟨2026, 1, 2, 3, 4, 5⟩ : DateTime).Valid = true ∧
    (LoggerManager.init "out" "logs" true).1.setup_save_logging ⟨"4chan_requester", 10, []⟩
        ⟨2026, 1, 2, 3, 4, 5⟩ =
      ⟨"4chan_requester", 10, [] ++
        [Handler.file (joinPath (LoggerManager.init "out" "logs" true).1.logfolder
            ("info_log" ++ get_full_time ⟨2026, 1, 2, 3, 4, 5⟩ ++ ".log")) INFO,
          Handler.file (joinPath (LoggerManager.init "out" "logs" true).1.logfolder
            ("debug_log" ++ get_full_time ⟨2026, 1, 2, 3, 4, 5⟩ ++ ".log")) DEBUG]⟩ ∧
    isFullTimeFormat (get_full_time ⟨2026, 1, 2, 3, 4, 5⟩) = true :=
  ⟨by decide,
    (C7_amended_log_file_names (LoggerManager.init "out" "logs" true).1
      ⟨"4chan_requester", 10, []⟩ ⟨2026, 1, 2, 3, 4, 5⟩ (by decide)).1,
    (C7_amended_log_file_names (LoggerManager.init "out" "logs" true).1
      ⟨"4chan_requester", 10, []⟩ ⟨2026, 1, 2, 3, 4, 5⟩ (by decide)).2⟩

end FourTCT
